import Mathlib

/-!
Shallow embedding of the building-clearance engine of this repository.

Sources embedded here:
- `建築限界プロジェクト/建築限界シミュレーターV22完成版/clearance_app_v22_font_fixed.py`
  (classes `ClearanceModelV22` and `ExcelAccurateCalculatorV22`)
- `building_limit_calculator_fixed.py` (class `BuildingLimitCalculatorFixed`)

Python floats are modelled by real numbers; `float('inf')` is modelled by
`⊤ : EReal` where the source can actually produce it.  Fallible paths do not
occur in the embedded fragment (all embedded functions are total).
-/

open Real Filter Topology Set

open scoped Classical

set_option maxRecDepth 16384

noncomputable section

namespace ClearanceSim

/-- Model of `np.linspace(a, b, n)`: `n` evenly spaced samples from `a` to `b`,
the `i`-th sample being `a + (b - a) * i / (n - 1)`. -/
def npLinspace (a b : ℝ) (n : ℕ) : List ℝ :=
  (List.range n).map fun i : ℕ => a + (b - a) * i / ((n : ℝ) - 1)

namespace ClearanceModelV22

/-- `ClearanceModelV22.calculate_base_clearance_at_height`.  The `height < 0`
branch returns Python `float('inf')`, modelled by `⊤ : EReal`; every other
branch returns a finite value, modelled by a coerced real. -/
def calculate_base_clearance_at_height (h : ℝ) : EReal :=
  if h < 0 then ⊤
  else if h < 25 then ((1225 : ℝ) : EReal)
  else if h < 375 then ((1225 + (h - 25) * (1575 - 1225) / (375 - 25) : ℝ) : EReal)
  else if h < 920 then ((1575 : ℝ) : EReal)
  else if h < 3156 then ((1900 : ℝ) : EReal)
  else if h < 3823 then
    (if 2150 ^ 2 - (h - 2150) ^ 2 < 0 then ((0 : ℝ) : EReal)
     else ((Real.sqrt (2150 ^ 2 - (h - 2150) ^ 2) : ℝ) : EReal))
  else if h < 5190 then ((1350 : ℝ) : EReal)
  else if 1800 ^ 2 - (h - 4000) ^ 2 < 0 then ((0 : ℝ) : EReal)
  else ((Real.sqrt (1800 ^ 2 - (h - 4000) ^ 2) : ℝ) : EReal)

/-- `ClearanceModelV22.calculate_curve_widening`: the guard in the source is
`curve_radius_m == 0`, not `<= 0`. -/
def calculate_curve_widening (r : ℝ) : ℝ :=
  if r = 0 then 0 else 23000 / r

/-- The sloped run of `create_accurate_clearance`: ten samples of the
25mm-to-375mm linear segment. -/
def slopePoints : List (ℝ × ℝ) :=
  (npLinspace 25 375 10).map fun h => (1225 + (h - 25) * (1575 - 1225) / (375 - 25), h)

/-- The 3156mm-to-3823mm arc samples of `create_accurate_clearance`; the source
appends a point only when the discriminant is nonnegative. -/
def arcPoints : List (ℝ × ℝ) :=
  ((npLinspace 3156 3823 100).filter fun h => decide (0 ≤ 2150 ^ 2 - (h - 2150) ^ 2)).map
    fun h => (Real.sqrt (2150 ^ 2 - (h - 2150) ^ 2), h)

/-- Start angle of the upper arc in `create_accurate_clearance`:
`atan2(y_intersect - center_y, x_boundary - center_x)` with a positive first
argument over `x_boundary = 1350 > 0`, hence an arctangent. -/
def upperArcStartAngle : ℝ :=
  Real.arctan (Real.sqrt ((1800 : ℝ) ^ 2 - 1350 ^ 2) / 1350)

/-- The upper-arc samples of `create_accurate_clearance`: thirty angles from the
start angle to `π / 2`, kept when `|x| ≤ 1350 ∧ 4000 ≤ y ≤ 5700`; the whole
block is guarded by the discriminant sign check of the source. -/
def upperArcPoints : List (ℝ × ℝ) :=
  if 0 ≤ (1800 : ℝ) ^ 2 - 1350 ^ 2 then
    (((List.range 30).map fun i : ℕ =>
        (1800 * Real.cos (upperArcStartAngle + (Real.pi / 2 - upperArcStartAngle) * i / 29),
         4000 + 1800 * Real.sin (upperArcStartAngle + (Real.pi / 2 - upperArcStartAngle) * i / 29))).filter
      fun q => decide (|q.1| ≤ 1350 ∧ q.2 ≤ 5700 ∧ 4000 ≤ q.2))
  else []

/-- The point list built by `create_accurate_clearance` just before the
left-side mirroring step. -/
def preMirrorPoints : List (ℝ × ℝ) :=
  [(1225, 0), (1225, 25)] ++ slopePoints
    ++ [(1575, 920), (1900, 920), (1900, 3156)] ++ arcPoints
    ++ [(1350, 3823), (1350, 4300)] ++ upperArcPoints
    ++ [(1350, 5700), (-1350, 5700)]

/-- `ClearanceModelV22.create_accurate_clearance`: the right-hand outline,
followed by the mirrored copies of `right_points[1:-1]` (the reversed list of
vertices with positive x, with its first and last entries dropped), closed with
a final `(1225, 0)`. -/
def create_accurate_clearance : List (ℝ × ℝ) :=
  preMirrorPoints
    ++ (((preMirrorPoints.filter fun q => decide (0 < q.1)).reverse.drop 1).dropLast.map
          fun q => (-q.1, q.2))
    ++ [(1225, 0)]

/-- Proof-side name for the vertices of `preMirrorPoints` strictly between the
opening `(1225, 0)` and the final positive-x vertex `(1350, 5700)`: exactly the
sublist whose mirror images the `right_points[1:-1]` slice of the source
appends. -/
def interiorRightPoints : List (ℝ × ℝ) :=
  (1225, 25) :: (slopePoints ++ [(1575, 920), (1900, 920), (1900, 3156)]
    ++ arcPoints ++ [(1350, 3823), (1350, 4300)] ++ upperArcPoints)

end ClearanceModelV22

namespace ExcelAccurateCalculatorV22

/-- The widening expression inlined identically at each use site of
`ExcelAccurateCalculatorV22`: `23000.0 / curve_radius_m if curve_radius_m > 0
else 0`. -/
def excel_widening (r : ℝ) : ℝ :=
  if 0 < r then 23000 / r else 0

/-- The piecewise half-width formula inlined identically in
`_create_clearance_data_with_widening` and
`_is_point_inside_building_clearance`.  The `height < 0` branch of the former
is unreachable there (`np.linspace(0, 5700, 1775)` is nonnegative) and assigns
a variable that is never read, so it is not part of this formula. -/
def base_clearance_piecewise (h : ℝ) : ℝ :=
  if h < 25 then 1225
  else if h < 375 then 1225 + (h - 25) * (1575 - 1225) / (375 - 25)
  else if h < 920 then 1575
  else if h < 3156 then 1900
  else if h < 3823 then
    (if 2150 ^ 2 - (h - 2150) ^ 2 < 0 then 0 else Real.sqrt (2150 ^ 2 - (h - 2150) ^ 2))
  else if h < 5190 then 1350
  else if 1800 ^ 2 - (h - 4000) ^ 2 < 0 then 0
  else Real.sqrt (1800 ^ 2 - (h - 4000) ^ 2)

/-- `ExcelAccurateCalculatorV22._create_clearance_data_with_widening`. -/
def create_clearance_data_with_widening (r : ℝ) : List (ℝ × ℝ) :=
  (npLinspace 0 5700 1775).map fun h => (base_clearance_piecewise h + excel_widening r, h)

/-- `ExcelAccurateCalculatorV22.coordinate_transform_to_rail_center` with the
rail gauge constant 1067. -/
def coordinate_transform_to_rail_center (d h c : ℝ) : ℝ × ℝ :=
  if c = 0 then (d, h)
  else (d - h * Real.sin (Real.arctan (c / 1067)), h * Real.cos (Real.arctan (c / 1067)))

/-- `ExcelAccurateCalculatorV22.calculate_ag2_excel_method`: the minimum of the
distances from the transformed point to the 1775 sampled clearance points.  The
source seeds a running minimum with `float('inf')`; `List.minimum` returns `⊤`
exactly in the impossible empty-list case. -/
def calculate_ag2_excel_method (d h c r : ℝ) : ℝ :=
  let p := coordinate_transform_to_rail_center d h c
  let data := create_clearance_data_with_widening r
  ((data.map fun q => Real.sqrt ((p.1 - q.1) ^ 2 + (p.2 - q.2) ^ 2)).minimum).untop' 0

/-- `ExcelAccurateCalculatorV22._is_point_inside_building_clearance`. -/
def is_point_inside_building_clearance (x y r : ℝ) : Prop :=
  if y < 0 ∨ 5700 < y then False
  else |x| < base_clearance_piecewise y + excel_widening r

/-- The record returned by `calculate_clearance_margin_excel_method` (its
string-valued `correction_method` field is presentation only and is omitted). -/
structure MarginResult where
  ag2 : ℝ
  corrected_margin : ℝ
  final_margin : ℤ
  is_interference : Prop
  is_inside_clearance : Prop
  rail_center_coords : ℝ × ℝ

/-- `ExcelAccurateCalculatorV22.calculate_clearance_margin_excel_method`. -/
def calculate_clearance_margin_excel_method (d h c r : ℝ) : MarginResult :=
  let ag2 := calculate_ag2_excel_method d h c r
  let p := coordinate_transform_to_rail_center d h c
  let corrected_margin : ℝ :=
    if ag2 < 5 then 0 else if ag2 < 13 then Real.sqrt (ag2 ^ 2 - 25) else ag2
  let is_inside := is_point_inside_building_clearance p.1 p.2 r
  let interf := is_inside ∨ ag2 < 5 ∨ corrected_margin ≤ 0
  { ag2 := ag2
    corrected_margin := corrected_margin
    final_margin := if interf then ⌈corrected_margin⌉ else ⌊corrected_margin⌋
    is_interference := interf
    is_inside_clearance := is_inside
    rail_center_coords := p }

/-- `ExcelAccurateCalculatorV22.calculate_required_clearance_excel_method`:
note that its low-height base clearance is the Excel `1225 + yd` rule, not the
piecewise function of `ClearanceModelV22`. -/
def calculate_required_clearance_excel_method (d h c r : ℝ) : ℝ :=
  let p := coordinate_transform_to_rail_center d h c
  let widening := excel_widening r
  let cant_correction : ℝ :=
    if c = 0 then 0 else h * Real.sin (Real.arctan (c / 1067))
  let yd := p.2
  let base_clearance : ℝ :=
    if yd < 25 then (if yd ≤ 350 then 1225 + yd else 1225 + 350)
    else if yd < 375 then (if yd ≤ 350 then 1225 + yd else 1225 + 350)
    else if yd < 920 then 1575
    else if yd < 3156 then 1900
    else if yd < 3823 then
      (if 2150 ^ 2 - (yd - 2150) ^ 2 < 0 then 0 else Real.sqrt (2150 ^ 2 - (yd - 2150) ^ 2))
    else if yd < 5190 then 1350
    else if 1800 ^ 2 - (yd - 4000) ^ 2 < 0 then 0
    else Real.sqrt (1800 ^ 2 - (yd - 4000) ^ 2)
  base_clearance + widening + cant_correction

/-- The record returned by `calculate_all_excel_method` (echoed inputs and the
presentation-only fields are omitted). -/
structure AllResult where
  required_clearance : ℝ
  clearance_margin : ℤ
  ag2_distance : ℝ
  is_interference : Prop

/-- `ExcelAccurateCalculatorV22.calculate_all_excel_method`. -/
def calculate_all_excel_method (d h c r : ℝ) : AllResult :=
  let req := calculate_required_clearance_excel_method d h c r
  let m := calculate_clearance_margin_excel_method d h c r
  { required_clearance := req
    clearance_margin := m.final_margin
    ag2_distance := m.ag2
    is_interference := m.is_interference }

/-- Modelled from the spec: the three-tier corrected-margin rule of §4.3 step 4,
stated as its own function of the raw nearest distance for comparison with the
source-embedded `calculate_clearance_margin_excel_method`. -/
def corrected_margin_spec (ag2 : ℝ) : ℝ :=
  if ag2 < 5 then 0 else if ag2 < 13 then Real.sqrt (ag2 ^ 2 - 25) else ag2

end ExcelAccurateCalculatorV22

namespace BuildingLimitCalculatorFixed

/-- `BuildingLimitCalculatorFixed.calculate_expansion_width`. -/
def calculate_expansion_width (radius : ℝ) : ℝ :=
  if radius = 0 ∨ 10000 < radius then 0 else 23100 / radius

/-- `BuildingLimitCalculatorFixed.calculate_upper_expansion_width`. -/
def calculate_upper_expansion_width (radius : ℝ) : ℝ :=
  if radius = 0 ∨ 10000 < radius then 0 else 11550 / radius

end BuildingLimitCalculatorFixed

end ClearanceSim

end

open ClearanceSim ClearanceSim.ClearanceModelV22 ClearanceSim.ExcelAccurateCalculatorV22
open ClearanceSim.BuildingLimitCalculatorFixed

/-- C1: `coordinate_transform_to_rail_center` returns exactly
`(offset - height * sin(atan(cant / 1067)), height * cos(atan(cant / 1067)))`
for every input (the x-coordinate is shifted by the sine term, never scaled by
the cosine), and for `cant = 0` it returns `(offset, height)` exactly. -/
theorem C1_point_to_rail_center :
    (∀ d h c : ℝ, coordinate_transform_to_rail_center d h c
        = (d - h * Real.sin (Real.arctan (c / 1067)), h * Real.cos (Real.arctan (c / 1067))))
    ∧ ∀ d h : ℝ, coordinate_transform_to_rail_center d h 0 = (d, h) := by
  constructor
  · intro d h c
    unfold coordinate_transform_to_rail_center
    by_cases hc : c = 0
    · subst hc
      norm_num [Real.arctan_zero]
    · rw [if_neg hc]
  · intro d h
    unfold coordinate_transform_to_rail_center
    rw [if_pos rfl]

/-- Unfolding lemma for the margin-method record: every field expressed through
`calculate_ag2_excel_method`, `corrected_margin_spec` (definitionally the same
if-chain as the source's corrected margin) and the inside test. -/
theorem calculate_clearance_margin_excel_method_eq (d h c r : ℝ) :
    calculate_clearance_margin_excel_method d h c r =
      { ag2 := calculate_ag2_excel_method d h c r
        corrected_margin := corrected_margin_spec (calculate_ag2_excel_method d h c r)
        final_margin :=
          if is_point_inside_building_clearance (coordinate_transform_to_rail_center d h c).1
                (coordinate_transform_to_rail_center d h c).2 r
              ∨ calculate_ag2_excel_method d h c r < 5
              ∨ corrected_margin_spec (calculate_ag2_excel_method d h c r) ≤ 0
          then ⌈corrected_margin_spec (calculate_ag2_excel_method d h c r)⌉
          else ⌊corrected_margin_spec (calculate_ag2_excel_method d h c r)⌋
        is_interference :=
          is_point_inside_building_clearance (coordinate_transform_to_rail_center d h c).1
              (coordinate_transform_to_rail_center d h c).2 r
            ∨ calculate_ag2_excel_method d h c r < 5
            ∨ corrected_margin_spec (calculate_ag2_excel_method d h c r) ≤ 0
        is_inside_clearance :=
          is_point_inside_building_clearance (coordinate_transform_to_rail_center d h c).1
            (coordinate_transform_to_rail_center d h c).2 r
        rail_center_coords := coordinate_transform_to_rail_center d h c } := by
  unfold calculate_clearance_margin_excel_method corrected_margin_spec
  rfl

/-- C2: the corrected margin computed by
`calculate_clearance_margin_excel_method` is exactly the three-tier function of
the raw nearest distance `ag2`: `0` below 5, `sqrt(ag2 ^ 2 - 25)` on `[5, 13)`,
and `ag2` itself from 13 on (so `ag2 = 13` exactly takes the identity branch,
not the square-root branch). -/
theorem C2_corrected_margin_tiers :
    (∀ d h c r : ℝ,
        (calculate_clearance_margin_excel_method d h c r).corrected_margin
          = corrected_margin_spec (calculate_clearance_margin_excel_method d h c r).ag2)
    ∧ (∀ a : ℝ, a < 5 → corrected_margin_spec a = 0)
    ∧ (∀ a : ℝ, 5 ≤ a → a < 13 → corrected_margin_spec a = Real.sqrt (a ^ 2 - 25))
    ∧ ∀ a : ℝ, 13 ≤ a → corrected_margin_spec a = a := by
  refine ⟨fun d h c r => ?_, fun a ha => if_pos ha, fun a ha5 ha13 => ?_, fun a ha => ?_⟩
  · rw [calculate_clearance_margin_excel_method_eq]
  · unfold corrected_margin_spec
    rw [if_neg (by linarith), if_pos ha13]
  · unfold corrected_margin_spec
    rw [if_neg (by linarith), if_neg (by linarith)]

/-- Witness for C2 at the tier boundary `ag2 = 13`. -/
theorem C2_corrected_margin_tiers_witness : corrected_margin_spec 13 = 13 :=
  C2_corrected_margin_tiers.2.2.2 13 (by norm_num)

/-- C3: the final integer margin returned by the evaluation is the ceiling of
the corrected margin when the point is classified as interfering, and its floor
otherwise — the rounding direction follows the interference classification. -/
theorem C3_directional_rounding :
    ∀ d h c r : ℝ,
      (calculate_all_excel_method d h c r).clearance_margin
          = (calculate_clearance_margin_excel_method d h c r).final_margin
      ∧ (calculate_clearance_margin_excel_method d h c r).final_margin
          = if (calculate_clearance_margin_excel_method d h c r).is_interference
            then ⌈(calculate_clearance_margin_excel_method d h c r).corrected_margin⌉
            else ⌊(calculate_clearance_margin_excel_method d h c r).corrected_margin⌋ := by
  intro d h c r
  refine ⟨rfl, ?_⟩
  rw [calculate_clearance_margin_excel_method_eq]
  by_cases hI : is_point_inside_building_clearance (coordinate_transform_to_rail_center d h c).1
        (coordinate_transform_to_rail_center d h c).2 r
      ∨ calculate_ag2_excel_method d h c r < 5
      ∨ corrected_margin_spec (calculate_ag2_excel_method d h c r) ≤ 0
  · rw [if_pos hI, if_pos hI]
  · rw [if_neg hI, if_neg hI]

/-- C7: for every positive radius the upper-envelope widening of
`BuildingLimitCalculatorFixed` is exactly half the general widening
(`11550 / r` versus `23100 / r`, both zero beyond 10000 m). -/
theorem C7_upper_widening_is_half :
    ∀ r : ℝ, 0 < r →
      calculate_upper_expansion_width r * 2 = calculate_expansion_width r := by
  intro r hr
  unfold calculate_upper_expansion_width calculate_expansion_width
  by_cases hg : r = 0 ∨ 10000 < r
  · rw [if_pos hg, if_pos hg]
    ring
  · rw [if_neg hg, if_neg hg]
    field_simp
    ring

/-- Witness for C7 at radius 100 m. -/
theorem C7_upper_widening_is_half_witness :
    calculate_upper_expansion_width 100 * 2 = calculate_expansion_width 100 :=
  C7_upper_widening_is_half 100 (by norm_num)

/-- C8 counterexample: `ClearanceModelV22.calculate_curve_widening` only guards
`radius == 0`, so at the nonpositive radius `-100` it returns `-230`, not `0`
as the claim states for every `radius <= 0`. -/
theorem C8_counterexample :
    calculate_curve_widening (-100) = -230 ∧ calculate_curve_widening (-100) ≠ 0 := by
  constructor <;> norm_num [calculate_curve_widening]

/-- C8 amended: `calculate_curve_widening` returns `0` only at `radius = 0` and
`23000 / radius` at every nonzero radius (negative radii included); the
widening used at the evaluation pipeline's call sites, which is guarded by
`radius > 0`, is `0` for every `radius <= 0` and `23000 / radius` for
`radius > 0`. -/
theorem C8_amended :
    calculate_curve_widening 0 = 0
    ∧ (∀ r : ℝ, r ≠ 0 → calculate_curve_widening r = 23000 / r)
    ∧ (∀ r : ℝ, r ≤ 0 → excel_widening r = 0)
    ∧ ∀ r : ℝ, 0 < r → excel_widening r = 23000 / r := by
  refine ⟨if_pos rfl, fun r hr => if_neg hr, fun r hr => if_neg (by linarith), fun r hr => if_pos hr⟩

/-- Witness for C8 amended at radius `-100` (pipeline widening) and `50`. -/
theorem C8_amended_witness :
    excel_widening (-100) = 0 ∧ excel_widening 50 = 23000 / 50 :=
  ⟨C8_amended.2.2.1 (-100) (by norm_num), C8_amended.2.2.2 50 (by norm_num)⟩

/-- C10: a negative height is not rejected: `calculate_base_clearance_at_height`
returns positive infinity for every `height < 0`, and the inside-envelope test
returns `False` for every point with `y < 0` or `y > 5700`, so such a point is
never classified as inside the clearance envelope. -/
theorem C10_negative_height_handling :
    (∀ h : ℝ, h < 0 → calculate_base_clearance_at_height h = ⊤)
    ∧ ∀ x y r : ℝ, y < 0 ∨ 5700 < y → ¬ is_point_inside_building_clearance x y r := by
  constructor
  · intro h hh
    unfold calculate_base_clearance_at_height
    rw [if_pos hh]
  · intro x y r hy
    unfold is_point_inside_building_clearance
    rw [if_pos hy]
    exact not_false

/-- Witness for C10 at height `-1` and at the point `(0, -1)`. -/
theorem C10_negative_height_handling_witness :
    calculate_base_clearance_at_height (-1) = ⊤
    ∧ ¬ is_point_inside_building_clearance 0 (-1) 0 :=
  ⟨C10_negative_height_handling.1 (-1) (by norm_num),
   C10_negative_height_handling.2 0 (-1) 0 (Or.inl (by norm_num))⟩

/-- C4 counterexample: at offset 1950 mm and height 100 mm with zero cant and
radius, the Excel-method required clearance is `1225 + 100 = 1325` mm while
`calculate_base_clearance_at_height 100` is `1300` mm, so the claimed equality
fails below 375 mm. -/
theorem C4_counterexample :
    ((calculate_all_excel_method 1950 100 0 0).required_clearance : EReal)
      ≠ calculate_base_clearance_at_height 100 := by
  have hreq : (calculate_all_excel_method 1950 100 0 0).required_clearance = 1325 := by
    unfold calculate_all_excel_method calculate_required_clearance_excel_method
      coordinate_transform_to_rail_center excel_widening
    norm_num
  have hbase : calculate_base_clearance_at_height 100 = ((1300 : ℝ) : EReal) := by
    unfold calculate_base_clearance_at_height
    norm_num
  rw [hreq, hbase]
  rw [ne_eq, EReal.coe_eq_coe_iff]
  norm_num

/-- C4 amended: with zero cant and zero radius the Excel-method required
clearance equals `calculate_base_clearance_at_height` exactly at height 0 and
at every height of at least 375 mm; on `0 <= height < 375` it instead equals
`1225 + min(height, 350)` (the spreadsheet low-height rule). -/
theorem C4_amended :
    ∀ d h : ℝ,
      ((h = 0 ∨ 375 ≤ h) →
        ((calculate_all_excel_method d h 0 0).required_clearance : EReal)
          = calculate_base_clearance_at_height h)
      ∧ (0 ≤ h → h < 375 →
          (calculate_all_excel_method d h 0 0).required_clearance = 1225 + min h 350) := by
  intro d h
  constructor
  · rintro (rfl | h375)
    · unfold calculate_all_excel_method calculate_required_clearance_excel_method
        coordinate_transform_to_rail_center excel_widening calculate_base_clearance_at_height
      norm_num
    · unfold calculate_all_excel_method calculate_required_clearance_excel_method
        coordinate_transform_to_rail_center excel_widening calculate_base_clearance_at_height
      rw [if_pos rfl]
      simp only
      rw [if_neg (by norm_num : ¬ (0:ℝ) < 0)]
      rw [if_neg (by linarith : ¬ h < 25), if_neg (by linarith : ¬ h < 375),
        if_neg (by linarith : ¬ h < 0), if_neg (by linarith : ¬ h < 25),
        if_neg (by linarith : ¬ h < 375)]
      by_cases h920 : h < 920
      · rw [if_pos h920, if_pos h920]
        norm_num
      · rw [if_neg h920, if_neg h920]
        by_cases h3156 : h < 3156
        · rw [if_pos h3156, if_pos h3156]
          norm_num
        · rw [if_neg h3156, if_neg h3156]
          by_cases h3823 : h < 3823
          · rw [if_pos h3823, if_pos h3823]
            by_cases hdisc : (2150:ℝ) ^ 2 - (h - 2150) ^ 2 < 0
            · rw [if_pos hdisc, if_pos hdisc]
              norm_num
            · rw [if_neg hdisc, if_neg hdisc]
              norm_num
          · rw [if_neg h3823, if_neg h3823]
            by_cases h5190 : h < 5190
            · rw [if_pos h5190, if_pos h5190]
              norm_num
            · rw [if_neg h5190, if_neg h5190]
              by_cases hdisc : (1800:ℝ) ^ 2 - (h - 4000) ^ 2 < 0
              · rw [if_pos hdisc, if_pos hdisc]
                norm_num
              · rw [if_neg hdisc, if_neg hdisc]
                norm_num
  · intro h0 h375
    unfold calculate_all_excel_method calculate_required_clearance_excel_method
      coordinate_transform_to_rail_center excel_widening
    rw [if_pos rfl]
    simp only
    rw [if_neg (by norm_num : ¬ (0:ℝ) < 0)]
    by_cases h350 : h ≤ 350
    · rw [min_eq_left h350]
      by_cases h25 : h < 25
      · rw [if_pos h25, if_pos h350]
        norm_num
      · rw [if_neg h25, if_pos h375, if_pos h350]
        norm_num
    · rw [min_eq_right (by linarith)]
      have h25 : ¬ h < 25 := by linarith
      rw [if_neg h25, if_pos h375, if_neg h350]
      norm_num

/-- If the base-clearance function agrees with `g` on `Ioo a b`, its left limit
at `b` is the left limit of `g`. -/
theorem base_tendsto_left_of_Ioo {g : ℝ → EReal} {a b : ℝ} {L : EReal} (hab : a < b)
    (hg : Tendsto g (𝓝[<] b) (𝓝 L))
    (heq : ∀ x ∈ Ioo a b, calculate_base_clearance_at_height x = g x) :
    Tendsto calculate_base_clearance_at_height (𝓝[<] b) (𝓝 L) := by
  apply hg.congr'
  filter_upwards [Ioo_mem_nhdsWithin_Iio (show b ∈ Ioc a b from ⟨hab, le_refl b⟩)] with x hx
  exact (heq x hx).symm

/-- If the base-clearance function agrees with `g` on `Ioo a b`, its right limit
at `a` is the right limit of `g`. -/
theorem base_tendsto_right_of_Ioo {g : ℝ → EReal} {a b : ℝ} {L : EReal} (hab : a < b)
    (hg : Tendsto g (𝓝[>] a) (𝓝 L))
    (heq : ∀ x ∈ Ioo a b, calculate_base_clearance_at_height x = g x) :
    Tendsto calculate_base_clearance_at_height (𝓝[>] a) (𝓝 L) := by
  apply hg.congr'
  filter_upwards [Ioo_mem_nhdsWithin_Ioi (show a ∈ Ico a b from ⟨le_refl a, hab⟩)] with x hx
  exact (heq x hx).symm

/-- A continuous real function, coerced to `EReal`, tends within a set to the
coercion of its value. -/
theorem tendsto_coe_within {f : ℝ → ℝ} {a v : ℝ} {s : Set ℝ} (hf : Continuous f)
    (hv : f a = v) : Tendsto (fun x => ((f x : ℝ) : EReal)) (𝓝[s] a) (𝓝 ((v : ℝ) : EReal)) := by
  rw [EReal.tendsto_coe]
  rw [← hv]
  exact (hf.tendsto a).mono_left nhdsWithin_le_nhds

/-- Value of the base clearance on the constant run `(0, 25)`. -/
theorem base_on_Ioo_0_25 : ∀ x ∈ Ioo (0:ℝ) 25,
    calculate_base_clearance_at_height x = ((1225 : ℝ) : EReal) := by
  intro x hx
  unfold calculate_base_clearance_at_height
  rw [if_neg (by linarith [hx.1]), if_pos hx.2]

/-- Value of the base clearance on the sloped run `(25, 375)`. -/
theorem base_on_Ioo_25_375 : ∀ x ∈ Ioo (25:ℝ) 375,
    calculate_base_clearance_at_height x
      = ((1225 + (x - 25) * (1575 - 1225) / (375 - 25) : ℝ) : EReal) := by
  intro x hx
  unfold calculate_base_clearance_at_height
  rw [if_neg (by linarith [hx.1]), if_neg (by linarith [hx.1]), if_pos hx.2]

/-- Value of the base clearance on the constant run `(375, 920)`. -/
theorem base_on_Ioo_375_920 : ∀ x ∈ Ioo (375:ℝ) 920,
    calculate_base_clearance_at_height x = ((1575 : ℝ) : EReal) := by
  intro x hx
  unfold calculate_base_clearance_at_height
  rw [if_neg (by linarith [hx.1]), if_neg (by linarith [hx.1]), if_neg (by linarith [hx.1]),
    if_pos hx.2]

/-- Value of the base clearance on the constant run `(920, 3156)`. -/
theorem base_on_Ioo_920_3156 : ∀ x ∈ Ioo (920:ℝ) 3156,
    calculate_base_clearance_at_height x = ((1900 : ℝ) : EReal) := by
  intro x hx
  unfold calculate_base_clearance_at_height
  rw [if_neg (by linarith [hx.1]), if_neg (by linarith [hx.1]), if_neg (by linarith [hx.1]),
    if_neg (by linarith [hx.1]), if_pos hx.2]

/-- Value of the base clearance on the lower arc `(3156, 3823)`. -/
theorem base_on_Ioo_3156_3823 : ∀ x ∈ Ioo (3156:ℝ) 3823,
    calculate_base_clearance_at_height x
      = ((Real.sqrt (2150 ^ 2 - (x - 2150) ^ 2) : ℝ) : EReal) := by
  intro x hx
  obtain ⟨hx1, hx2⟩ := hx
  unfold calculate_base_clearance_at_height
  rw [if_neg (by linarith), if_neg (by linarith), if_neg (by linarith), if_neg (by linarith),
    if_neg (by linarith), if_pos hx2, if_neg (by nlinarith)]

/-- Value of the base clearance on the constant run `(3823, 5190)`. -/
theorem base_on_Ioo_3823_5190 : ∀ x ∈ Ioo (3823:ℝ) 5190,
    calculate_base_clearance_at_height x = ((1350 : ℝ) : EReal) := by
  intro x hx
  obtain ⟨hx1, hx2⟩ := hx
  unfold calculate_base_clearance_at_height
  rw [if_neg (by linarith), if_neg (by linarith), if_neg (by linarith), if_neg (by linarith),
    if_neg (by linarith), if_neg (by linarith), if_pos hx2]

/-- Value of the base clearance on the upper arc `(5190, 5800)`. -/
theorem base_on_Ioo_5190_5800 : ∀ x ∈ Ioo (5190:ℝ) 5800,
    calculate_base_clearance_at_height x
      = ((Real.sqrt (1800 ^ 2 - (x - 4000) ^ 2) : ℝ) : EReal) := by
  intro x hx
  obtain ⟨hx1, hx2⟩ := hx
  unfold calculate_base_clearance_at_height
  rw [if_neg (by linarith), if_neg (by linarith), if_neg (by linarith), if_neg (by linarith),
    if_neg (by linarith), if_neg (by linarith), if_neg (by linarith), if_neg (by nlinarith)]

/-- C5 counterexample: at the segment boundary 920 mm the left limit of
`calculate_base_clearance_at_height` is 1575 and the right limit is 1900, so
the two one-sided limits differ by 325 mm, not by less than `1e-6`. -/
theorem C5_counterexample :
    Tendsto calculate_base_clearance_at_height (𝓝[<] (920:ℝ)) (𝓝 ((1575 : ℝ) : EReal))
    ∧ Tendsto calculate_base_clearance_at_height (𝓝[>] (920:ℝ)) (𝓝 ((1900 : ℝ) : EReal))
    ∧ ¬ |(1575 : ℝ) - 1900| < 1e-6 := by
  refine ⟨base_tendsto_left_of_Ioo (by norm_num) tendsto_const_nhds base_on_Ioo_375_920,
    base_tendsto_right_of_Ioo (by norm_num) tendsto_const_nhds base_on_Ioo_920_3156, ?_⟩
  rw [not_lt]
  rw [abs_of_nonpos (by norm_num)]
  norm_num

/-- C5 amended: the one-sided limits of `calculate_base_clearance_at_height`
coincide at the boundaries 25 and 375 (both 1225 resp. both 1575), but differ
at 920 (1575 versus 1900), at 3156 (1900 versus `sqrt 3610464`, about 0.122 mm
apart), at 3823 (`sqrt 1823571` versus 1350, about 0.397 mm apart) and at 5190
(1350 versus `sqrt 1823900`, about 0.518 mm apart) — each of those four gaps is
at least `1e-6` mm. -/
theorem C5_amended :
    (Tendsto calculate_base_clearance_at_height (𝓝[<] (25:ℝ)) (𝓝 ((1225 : ℝ) : EReal))
      ∧ Tendsto calculate_base_clearance_at_height (𝓝[>] (25:ℝ)) (𝓝 ((1225 : ℝ) : EReal))
      ∧ |(1225 : ℝ) - 1225| < 1e-6)
    ∧ (Tendsto calculate_base_clearance_at_height (𝓝[<] (375:ℝ)) (𝓝 ((1575 : ℝ) : EReal))
      ∧ Tendsto calculate_base_clearance_at_height (𝓝[>] (375:ℝ)) (𝓝 ((1575 : ℝ) : EReal))
      ∧ |(1575 : ℝ) - 1575| < 1e-6)
    ∧ (Tendsto calculate_base_clearance_at_height (𝓝[<] (920:ℝ)) (𝓝 ((1575 : ℝ) : EReal))
      ∧ Tendsto calculate_base_clearance_at_height (𝓝[>] (920:ℝ)) (𝓝 ((1900 : ℝ) : EReal))
      ∧ 1e-6 ≤ |(1575 : ℝ) - 1900|)
    ∧ (Tendsto calculate_base_clearance_at_height (𝓝[<] (3156:ℝ)) (𝓝 ((1900 : ℝ) : EReal))
      ∧ Tendsto calculate_base_clearance_at_height (𝓝[>] (3156:ℝ))
          (𝓝 ((Real.sqrt 3610464 : ℝ) : EReal))
      ∧ 1e-6 ≤ |(1900 : ℝ) - Real.sqrt 3610464|)
    ∧ (Tendsto calculate_base_clearance_at_height (𝓝[<] (3823:ℝ))
          (𝓝 ((Real.sqrt 1823571 : ℝ) : EReal))
      ∧ Tendsto calculate_base_clearance_at_height (𝓝[>] (3823:ℝ)) (𝓝 ((1350 : ℝ) : EReal))
      ∧ 1e-6 ≤ |Real.sqrt 1823571 - (1350 : ℝ)|)
    ∧ (Tendsto calculate_base_clearance_at_height (𝓝[<] (5190:ℝ)) (𝓝 ((1350 : ℝ) : EReal))
      ∧ Tendsto calculate_base_clearance_at_height (𝓝[>] (5190:ℝ))
          (𝓝 ((Real.sqrt 1823900 : ℝ) : EReal))
      ∧ 1e-6 ≤ |(1350 : ℝ) - Real.sqrt 1823900|) := by
  have hslope : Continuous fun x : ℝ => 1225 + (x - 25) * (1575 - 1225) / (375 - 25) := by
    fun_prop
  have harc1 : Continuous fun x : ℝ => Real.sqrt (2150 ^ 2 - (x - 2150) ^ 2) :=
    Real.continuous_sqrt.comp (by fun_prop)
  have harc2 : Continuous fun x : ℝ => Real.sqrt (1800 ^ 2 - (x - 4000) ^ 2) :=
    Real.continuous_sqrt.comp (by fun_prop)
  have hs3156 : (1900 + 1e-6 : ℝ) ≤ Real.sqrt 3610464 :=
    (Real.le_sqrt' (by norm_num)).mpr (by norm_num)
  have hs3156u : Real.sqrt 3610464 < 1901 := (Real.sqrt_lt' (by norm_num)).mpr (by norm_num)
  have hs3823 : (1350 + 1e-6 : ℝ) ≤ Real.sqrt 1823571 :=
    (Real.le_sqrt' (by norm_num)).mpr (by norm_num)
  have hs5190 : (1350 + 1e-6 : ℝ) ≤ Real.sqrt 1823900 :=
    (Real.le_sqrt' (by norm_num)).mpr (by norm_num)
  refine ⟨⟨?_, ?_, by norm_num⟩, ⟨?_, ?_, by norm_num⟩, ⟨?_, ?_, ?_⟩, ⟨?_, ?_, ?_⟩,
    ⟨?_, ?_, ?_⟩, ⟨?_, ?_, ?_⟩⟩
  · exact base_tendsto_left_of_Ioo (by norm_num) tendsto_const_nhds base_on_Ioo_0_25
  · exact base_tendsto_right_of_Ioo (by norm_num)
      (tendsto_coe_within hslope (by norm_num)) base_on_Ioo_25_375
  · exact base_tendsto_left_of_Ioo (by norm_num)
      (tendsto_coe_within hslope (by norm_num)) base_on_Ioo_25_375
  · exact base_tendsto_right_of_Ioo (by norm_num) tendsto_const_nhds base_on_Ioo_375_920
  · exact base_tendsto_left_of_Ioo (by norm_num) tendsto_const_nhds base_on_Ioo_375_920
  · exact base_tendsto_right_of_Ioo (by norm_num) tendsto_const_nhds base_on_Ioo_920_3156
  · rw [abs_of_nonpos (by norm_num)]
    norm_num
  · exact base_tendsto_left_of_Ioo (by norm_num) tendsto_const_nhds base_on_Ioo_920_3156
  · exact base_tendsto_right_of_Ioo (by norm_num)
      (tendsto_coe_within harc1 (by norm_num)) base_on_Ioo_3156_3823
  · rw [abs_of_nonpos (by linarith)]
    linarith
  · exact base_tendsto_left_of_Ioo (by norm_num)
      (tendsto_coe_within harc1 (by norm_num)) base_on_Ioo_3156_3823
  · exact base_tendsto_right_of_Ioo (by norm_num) tendsto_const_nhds base_on_Ioo_3823_5190
  · rw [abs_of_nonneg (by linarith)]
    linarith
  · exact base_tendsto_left_of_Ioo (by norm_num) tendsto_const_nhds base_on_Ioo_3823_5190
  · exact base_tendsto_right_of_Ioo (by norm_num)
      (tendsto_coe_within harc2 (by norm_num)) base_on_Ioo_5190_5800
  · rw [abs_of_nonpos (by linarith)]
    linarith

/-- Witness for C4 amended at heights 400 (agreement band) and 100 (Excel
low-height band). -/
theorem C4_amended_witness :
    ((calculate_all_excel_method 0 400 0 0).required_clearance : EReal)
        = calculate_base_clearance_at_height 400
    ∧ (calculate_all_excel_method 0 100 0 0).required_clearance = 1225 + min (100:ℝ) 350 :=
  ⟨(C4_amended 0 400).1 (Or.inr (by norm_num)),
   (C4_amended 0 100).2 (by norm_num) (by norm_num)⟩

/-- Members of `npLinspace a b n` indexed. -/
theorem npLinspace_mem {a b x : ℝ} {n : ℕ} (hx : x ∈ npLinspace a b n) :
    ∃ i : ℕ, i < n ∧ x = a + (b - a) * i / ((n : ℝ) - 1) := by
  unfold npLinspace at hx
  obtain ⟨i, hi, hxi⟩ := List.mem_map.mp hx
  exact ⟨i, List.mem_range.mp hi, hxi.symm⟩

/-- Samples of `npLinspace a b n` stay inside `[a, b]` when `a ≤ b` and
`n ≥ 2`. -/
theorem npLinspace_bounds {a b : ℝ} {n : ℕ} (hab : a ≤ b) (hn : 2 ≤ n) {x : ℝ}
    (hx : x ∈ npLinspace a b n) : a ≤ x ∧ x ≤ b := by
  obtain ⟨i, hi, rfl⟩ := npLinspace_mem hx
  have hd : (0 : ℝ) < (n : ℝ) - 1 := by
    have : (2 : ℝ) ≤ (n : ℝ) := by exact_mod_cast hn
    linarith
  have hi' : (i : ℝ) ≤ (n : ℝ) - 1 := by
    have : (i : ℝ) + 1 ≤ (n : ℝ) := by exact_mod_cast hi
    linarith
  have hnum : 0 ≤ (b - a) * i := mul_nonneg (by linarith) (Nat.cast_nonneg i)
  constructor
  · have : 0 ≤ (b - a) * i / ((n : ℝ) - 1) := div_nonneg hnum (le_of_lt hd)
    linarith
  · have h2 : (b - a) * i / ((n : ℝ) - 1) ≤ b - a := by
      rw [div_le_iff hd]
      nlinarith
    linarith

/-- Every sampled slope vertex has positive x and height at least 25. -/
theorem slopePoints_mem {p : ℝ × ℝ} (hp : p ∈ slopePoints) : 0 < p.1 ∧ 25 ≤ p.2 := by
  unfold slopePoints at hp
  obtain ⟨h, hh, rfl⟩ := List.mem_map.mp hp
  obtain ⟨h25, _⟩ := npLinspace_bounds (by norm_num) (by norm_num) hh
  refine ⟨?_, h25⟩
  show (0 : ℝ) < 1225 + (h - 25) * (1575 - 1225) / (375 - 25)
  have : 0 ≤ (h - 25) * (1575 - 1225) / (375 - 25) :=
    div_nonneg (mul_nonneg (by linarith) (by norm_num)) (by norm_num)
  linarith

/-- Every sampled lower-arc vertex has positive x and height at least 3156. -/
theorem arcPoints_mem {p : ℝ × ℝ} (hp : p ∈ arcPoints) : 0 < p.1 ∧ 3156 ≤ p.2 := by
  unfold arcPoints at hp
  obtain ⟨h, hh, rfl⟩ := List.mem_map.mp hp
  have hh' := (List.mem_filter.mp hh).1
  obtain ⟨h1, h2⟩ := npLinspace_bounds (by norm_num) (by norm_num) hh'
  refine ⟨?_, h1⟩
  show (0 : ℝ) < Real.sqrt (2150 ^ 2 - (h - 2150) ^ 2)
  rw [Real.sqrt_pos]
  nlinarith

/-- Every kept upper-arc vertex has positive x and height at least 4000: the
only sampled angle reaching `π / 2` produces `y = 5800` and is rejected by the
`y ≤ 5700` filter, and every other sampled angle lies in `(-π/2, π/2)` where
the cosine is positive. -/
theorem upperArcPoints_mem {p : ℝ × ℝ} (hp : p ∈ upperArcPoints) : 0 < p.1 ∧ 4000 ≤ p.2 := by
  unfold upperArcPoints at hp
  rw [if_pos (by norm_num)] at hp
  have hp' := List.mem_filter.mp hp
  obtain ⟨i, hi, rfl⟩ := List.mem_map.mp hp'.1
  have hcond := of_decide_eq_true hp'.2
  simp only at hcond
  obtain ⟨habs, h5700, h4000⟩ := hcond
  refine ⟨?_, h4000⟩
  have hi30 : i < 30 := List.mem_range.mp hi
  have hsl : upperArcStartAngle < Real.pi / 2 := Real.arctan_lt_pi_div_two _
  have hsg : -(Real.pi / 2) < upperArcStartAngle := Real.neg_pi_div_two_lt_arctan _
  by_cases h29 : (i : ℝ) ≤ 28
  · have hnn : 0 ≤ (Real.pi / 2 - upperArcStartAngle) * i / 29 :=
      div_nonneg (mul_nonneg (by linarith) (Nat.cast_nonneg i)) (by norm_num)
    have hlt : (Real.pi / 2 - upperArcStartAngle) * i / 29 < Real.pi / 2 - upperArcStartAngle := by
      rw [div_lt_iff (by norm_num : (0 : ℝ) < 29)]
      nlinarith
    have hcos := Real.cos_pos_of_mem_Ioo
      (show upperArcStartAngle + (Real.pi / 2 - upperArcStartAngle) * i / 29
          ∈ Ioo (-(Real.pi / 2)) (Real.pi / 2) from ⟨by linarith, by linarith⟩)
    show (0 : ℝ) < 1800 * Real.cos _
    exact mul_pos (by norm_num) hcos
  · exfalso
    have hieq : (i : ℝ) = 29 := by
      have h28 : (28 : ℝ) < (i : ℝ) := lt_of_not_le h29
      have hle : (i : ℝ) ≤ 29 := by
        have : i ≤ 29 := Nat.lt_succ_iff.mp hi30
        exact_mod_cast this
      have h28n : 28 < i := by exact_mod_cast h28
      have : 29 ≤ i := h28n
      have : (29 : ℝ) ≤ (i : ℝ) := by exact_mod_cast this
      linarith
    have hθ : upperArcStartAngle + (Real.pi / 2 - upperArcStartAngle) * (i : ℝ) / 29
        = Real.pi / 2 := by
      rw [hieq]
      ring
    rw [hθ, Real.sin_pi_div_two] at h5700
    norm_num at h5700

/-- `preMirrorPoints` regrouped around `interiorRightPoints`. -/
theorem preMirror_structure :
    preMirrorPoints = (1225, 0) :: (interiorRightPoints ++ [(1350, 5700), (-1350, 5700)]) := by
  simp [preMirrorPoints, interiorRightPoints]

/-- Every interior right-side vertex has positive x and positive height. -/
theorem interior_mem_pos : ∀ q ∈ interiorRightPoints, 0 < q.1 ∧ 0 < q.2 := by
  intro q hq
  unfold interiorRightPoints at hq
  rcases List.mem_cons.mp hq with rfl | hq
  · norm_num
  rcases List.mem_append.mp hq with hq | hq
  swap
  · exact ⟨(upperArcPoints_mem hq).1, by linarith [(upperArcPoints_mem hq).2]⟩
  rcases List.mem_append.mp hq with hq | hq
  swap
  · rcases List.mem_cons.mp hq with rfl | hq
    · norm_num
    have := List.mem_singleton.mp hq
    subst this
    norm_num
  rcases List.mem_append.mp hq with hq | hq
  swap
  · exact ⟨(arcPoints_mem hq).1, by linarith [(arcPoints_mem hq).2]⟩
  rcases List.mem_append.mp hq with hq | hq
  · exact ⟨(slopePoints_mem hq).1, by linarith [(slopePoints_mem hq).2]⟩
  · rcases List.mem_cons.mp hq with rfl | hq
    · norm_num
    rcases List.mem_cons.mp hq with rfl | hq
    · norm_num
    have := List.mem_singleton.mp hq
    subst this
    norm_num

/-- Every interior right-side vertex has positive x. -/
theorem interior_fst_pos : ∀ q ∈ interiorRightPoints, 0 < q.1 :=
  fun q hq => (interior_mem_pos q hq).1

/-- Every interior right-side vertex has positive height. -/
theorem interior_snd_pos : ∀ q ∈ interiorRightPoints, 0 < q.2 :=
  fun q hq => (interior_mem_pos q hq).2

/-- The positive-x filter of `preMirrorPoints` keeps everything except the
final `(-1350, 5700)`. -/
theorem preMirror_filter_eq :
    preMirrorPoints.filter (fun q => decide (0 < q.1))
      = (1225, 0) :: (interiorRightPoints ++ [(1350, 5700)]) := by
  have hint : interiorRightPoints.filter (fun q => decide (0 < q.1)) = interiorRightPoints :=
    List.filter_eq_self.mpr fun q hq => decide_eq_true (interior_fst_pos q hq)
  rw [preMirror_structure]
  rw [List.filter_cons, List.filter_append, hint]
  norm_num [List.filter]

/-- The `right_points[1:-1]` slice of the source is exactly the reversed
interior list. -/
theorem mirror_slice_eq :
    ((preMirrorPoints.filter fun q => decide (0 < q.1)).reverse.drop 1).dropLast
      = interiorRightPoints.reverse := by
  rw [preMirror_filter_eq]
  simp

/-- `create_accurate_clearance` decomposed: right outline, mirrored interior,
closing vertex. -/
theorem create_accurate_clearance_eq :
    create_accurate_clearance
      = preMirrorPoints ++ (interiorRightPoints.reverse.map fun q => (-q.1, q.2))
          ++ [(1225, 0)] := by
  unfold create_accurate_clearance
  rw [mirror_slice_eq]

/-- Right-outline vertices are polygon vertices. -/
theorem preMirror_subset_create {q : ℝ × ℝ} (hq : q ∈ preMirrorPoints) :
    q ∈ create_accurate_clearance := by
  rw [create_accurate_clearance_eq]
  exact List.mem_append.mpr (Or.inl (List.mem_append.mpr (Or.inl hq)))

/-- Interior right-side vertices are right-outline vertices. -/
theorem interior_subset_preMirror {q : ℝ × ℝ} (hq : q ∈ interiorRightPoints) :
    q ∈ preMirrorPoints := by
  rw [preMirror_structure]
  exact List.mem_cons_of_mem _ (List.mem_append.mpr (Or.inl hq))

/-- The mirror image of every interior right-side vertex is a polygon vertex. -/
theorem mirror_mem_create {q : ℝ × ℝ} (hq : q ∈ interiorRightPoints) :
    ((-q.1, q.2)) ∈ create_accurate_clearance := by
  rw [create_accurate_clearance_eq]
  refine List.mem_append.mpr (Or.inl (List.mem_append.mpr (Or.inr ?_)))
  exact List.mem_map.mpr ⟨q, List.mem_reverse.mpr hq, rfl⟩

/-- C6 counterexample: `(1225, 0)` is a vertex of the un-rotated base polygon
built by `create_accurate_clearance`, but its mirror image `(-1225, 0)` is not
(the source's `right_points[1:-1]` slice drops the first right-side vertex
before mirroring), so the claimed mirror symmetry fails at `(1225, 0)`. -/
theorem C6_counterexample :
    ((1225 : ℝ), (0 : ℝ)) ∈ create_accurate_clearance
    ∧ ((-1225 : ℝ), (0 : ℝ)) ∉ create_accurate_clearance := by
  constructor
  · refine preMirror_subset_create ?_
    rw [preMirror_structure]
    exact List.mem_cons_self _ _
  · intro hmem
    rw [create_accurate_clearance_eq] at hmem
    rcases List.mem_append.mp hmem with hm | hm
    · rcases List.mem_append.mp hm with hm | hm
      · rw [preMirror_structure] at hm
        rcases List.mem_cons.mp hm with heq | hm
        · rw [Prod.mk.injEq] at heq
          norm_num at heq
        rcases List.mem_append.mp hm with hm | hm
        · have := interior_snd_pos _ hm
          norm_num at this
        · rcases List.mem_cons.mp hm with heq | hm
          · rw [Prod.mk.injEq] at heq
            norm_num at heq
          · have heq := List.mem_singleton.mp hm
            rw [Prod.mk.injEq] at heq
            norm_num at heq
      · obtain ⟨q, hq, heq⟩ := List.mem_map.mp hm
        have hpos := interior_snd_pos _ (List.mem_reverse.mp hq)
        have h0 : q.2 = 0 := congrArg Prod.snd heq
        linarith
    · have heq := List.mem_singleton.mp hm
      rw [Prod.mk.injEq] at heq
      norm_num at heq

/-- C6 amended: every vertex of the un-rotated base polygon other than the
opening vertex `(1225, 0)` has its mirror image `(-x, y)` among the vertices;
the opening vertex is the single exception exhibited by the counterexample. -/
theorem C6_amended :
    ∀ p ∈ create_accurate_clearance, p ≠ ((1225 : ℝ), (0 : ℝ)) →
      ((-p.1, p.2)) ∈ create_accurate_clearance := by
  intro p hp hne
  rw [create_accurate_clearance_eq] at hp
  rcases List.mem_append.mp hp with hm | hm
  · rcases List.mem_append.mp hm with hm1 | hm1
    · rw [preMirror_structure] at hm1
      rcases List.mem_cons.mp hm1 with rfl | hm1
      · exact absurd rfl hne
      rcases List.mem_append.mp hm1 with hm1 | hm1
      · exact mirror_mem_create hm1
      · rcases List.mem_cons.mp hm1 with rfl | hm1
        · refine preMirror_subset_create ?_
          rw [preMirror_structure]
          refine List.mem_cons_of_mem _ (List.mem_append.mpr (Or.inr ?_))
          norm_num
        · have heq := List.mem_singleton.mp hm1
          subst heq
          refine preMirror_subset_create ?_
          rw [preMirror_structure]
          refine List.mem_cons_of_mem _ (List.mem_append.mpr (Or.inr ?_))
          norm_num
    · obtain ⟨q, hq, heq⟩ := List.mem_map.mp hm1
      subst heq
      have hq' := List.mem_reverse.mp hq
      have hqe : ((-(-q.1, q.2).1, ((-q.1 : ℝ), q.2).2)) = q := by
        simp
      rw [hqe]
      exact preMirror_subset_create (interior_subset_preMirror hq')
  · have heq := List.mem_singleton.mp hm
    exact absurd heq hne

/-- Witness for C6 amended at the vertex `(1225, 25)`. -/
theorem C6_amended_witness : ((-1225 : ℝ), (25 : ℝ)) ∈ create_accurate_clearance := by
  have h1 : ((1225 : ℝ), (25 : ℝ)) ∈ create_accurate_clearance := by
    refine preMirror_subset_create ?_
    rw [preMirror_structure]
    refine List.mem_cons_of_mem _ (List.mem_append.mpr (Or.inl ?_))
    exact List.mem_cons_self _ _
  have h2 := C6_amended ((1225 : ℝ), (25 : ℝ)) h1 (by norm_num [Prod.mk.injEq])
  simpa using h2

/-- A quantity below a nonpositive bound has square at least the bound's. -/
theorem sq_ge_of_le_neg {x m : ℝ} (hm : 0 ≤ m) (hx : x ≤ -m) : m ^ 2 ≤ x ^ 2 := by
  nlinarith [sq_nonneg (x + m)]

/-- A quantity above a nonnegative bound has square at least the bound's. -/
theorem sq_ge_of_ge {x m : ℝ} (hm : 0 ≤ m) (hx : m ≤ x) : m ^ 2 ≤ x ^ 2 := by
  nlinarith [sq_nonneg (x - m)]

/-- The pipeline widening vanishes on straight track. -/
theorem excel_widening_zero : excel_widening 0 = 0 := by
  unfold excel_widening
  rw [if_neg (lt_irrefl 0)]

/-- Rational bounds for `sqrt 1148489 = sqrt (1067^2 + 100^2)`, the
denominator of the cant rotation at cant 100 mm. -/
theorem C9_s_bounds : 1071.6757 < Real.sqrt 1148489 ∧ Real.sqrt 1148489 < 1071.6758 :=
  ⟨(Real.lt_sqrt (by norm_num)).mpr (by norm_num),
   (Real.sqrt_lt' (by norm_num)).mpr (by norm_num)⟩

/-- Rational bounds for the cant shift `3560 * sin(atan(100 / 1067))`. -/
theorem C9_u_bounds :
    332.1899 < 356000 / Real.sqrt 1148489 ∧ 356000 / Real.sqrt 1148489 < 332.1901 := by
  have hs := C9_s_bounds
  have hpos : (0 : ℝ) < Real.sqrt 1148489 := lt_trans (by norm_num) hs.1
  constructor
  · have h1 : (356000 : ℝ) / 1071.6758 < 356000 / Real.sqrt 1148489 :=
      div_lt_div_of_pos_left (by norm_num) hpos hs.2
    have h2 : (332.1899 : ℝ) < 356000 / 1071.6758 := by norm_num
    linarith
  · have h1 : (356000 : ℝ) / Real.sqrt 1148489 < 356000 / 1071.6757 :=
      div_lt_div_of_pos_left (by norm_num) (by norm_num) hs.1
    have h2 : (356000 : ℝ) / 1071.6757 < 332.1901 := by norm_num
    linarith

/-- Rational bounds for the rail-center height `3560 * cos(atan(100 / 1067))`. -/
theorem C9_v_bounds :
    3544.467 < 3798520 / Real.sqrt 1148489 ∧ 3798520 / Real.sqrt 1148489 < 3544.468 := by
  have hs := C9_s_bounds
  have hpos : (0 : ℝ) < Real.sqrt 1148489 := lt_trans (by norm_num) hs.1
  constructor
  · have h1 : (3798520 : ℝ) / 1071.6758 < 3798520 / Real.sqrt 1148489 :=
      div_lt_div_of_pos_left (by norm_num) hpos hs.2
    have h2 : (3544.467 : ℝ) < 3798520 / 1071.6758 := by norm_num
    linarith
  · have h1 : (3798520 : ℝ) / Real.sqrt 1148489 < 3798520 / 1071.6757 :=
      div_lt_div_of_pos_left (by norm_num) (by norm_num) hs.1
    have h2 : (3798520 : ℝ) / 1071.6757 < 3544.468 := by norm_num
    linarith

/-- Closed form of the rail-center transform of the regression fixture point:
`sin(atan t) = t / sqrt(1 + t^2)` and `cos(atan t) = 1 / sqrt(1 + t^2)` with
`t = 100 / 1067` give the coordinates through `sqrt 1148489`. -/
theorem C9_transform :
    coordinate_transform_to_rail_center 1950 3560 100
      = (1950 - 356000 / Real.sqrt 1148489, 3798520 / Real.sqrt 1148489) := by
  have hspos : (0 : ℝ) < Real.sqrt 1148489 := lt_trans (by norm_num) C9_s_bounds.1
  have hsne : Real.sqrt 1148489 ≠ 0 := ne_of_gt hspos
  have h1 : Real.sqrt (1 + (100 / 1067 : ℝ) ^ 2) = Real.sqrt 1148489 / 1067 := by
    rw [show (1 + (100 / 1067 : ℝ) ^ 2) = 1148489 * (1 / 1067) ^ 2 by norm_num]
    rw [Real.sqrt_mul (by norm_num) _]
    rw [Real.sqrt_sq (by norm_num : (0 : ℝ) ≤ 1 / 1067)]
    ring
  unfold coordinate_transform_to_rail_center
  rw [if_neg (by norm_num : (100 : ℝ) ≠ 0)]
  rw [show ((100 : ℝ) / 1067) = (100 / 1067 : ℝ) from rfl]
  rw [Real.sin_arctan, Real.cos_arctan, h1]
  rw [Prod.mk.injEq]
  constructor
  · have : (3560 : ℝ) * ((100 / 1067) / (Real.sqrt 1148489 / 1067))
        = 356000 / Real.sqrt 1148489 := by
      field_simp
      ring
    rw [this]
  · field_simp
    ring

/-- The fixture's rail-center point lies inside the clearance envelope. -/
theorem C9_inside :
    is_point_inside_building_clearance (1950 - 356000 / Real.sqrt 1148489)
      (3798520 / Real.sqrt 1148489) 0 := by
  have hu := C9_u_bounds
  have hv := C9_v_bounds
  unfold is_point_inside_building_clearance
  rw [if_neg (by push_neg; constructor <;> linarith [hv.1, hv.2])]
  have hpw : base_clearance_piecewise (3798520 / Real.sqrt 1148489)
      = Real.sqrt (2150 ^ 2 - (3798520 / Real.sqrt 1148489 - 2150) ^ 2) := by
    unfold base_clearance_piecewise
    rw [if_neg (by linarith [hv.1]), if_neg (by linarith [hv.1]), if_neg (by linarith [hv.1]),
      if_neg (by linarith [hv.1]), if_pos (by linarith [hv.2]),
      if_neg (by nlinarith [hv.1, hv.2])]
  rw [hpw, excel_widening_zero, add_zero]
  rw [abs_of_pos (by linarith [hu.2])]
  have hlim : (1636.4 : ℝ) < Real.sqrt (2150 ^ 2 - (3798520 / Real.sqrt 1148489 - 2150) ^ 2) := by
    rw [Real.lt_sqrt (by norm_num)]
    nlinarith [hv.1, hv.2]
  linarith [hu.1]

/-- Distance lower bound for a sample in the lower-arc height band: with the
stated rational bounds on the sampled half-width and the fixture's rail-center
point, the sample is at distance more than 14.01 mm. -/
theorem C9_arc_case (K A mdx mdy : ℝ) (hA : 0 ≤ A) (hKlo : (3156 : ℝ) ≤ K) (hKhi : K < 3823)
    (hdisc : ¬ (2150 : ℝ) ^ 2 - (K - 2150) ^ 2 < 0)
    (hcl : A ^ 2 < 2150 ^ 2 - (K - 2150) ^ 2)
    (hmdx : 0 ≤ mdx) (hmdx2 : mdx ≤ 332.1899 + A - 1950)
    (hmdy : 0 ≤ mdy) (hmdy2 : 3544.468 + mdy ≤ K ∨ mdy = 0)
    (htot : 196.2801 ≤ mdx ^ 2 + mdy ^ 2) :
    14.01 ≤ Real.sqrt ((1950 - 356000 / Real.sqrt 1148489
        - (base_clearance_piecewise K + excel_widening 0)) ^ 2
      + (3798520 / Real.sqrt 1148489 - K) ^ 2) := by
  have hu := C9_u_bounds
  have hv := C9_v_bounds
  have hpw : base_clearance_piecewise K = Real.sqrt (2150 ^ 2 - (K - 2150) ^ 2) := by
    unfold base_clearance_piecewise
    rw [if_neg (by linarith), if_neg (by linarith), if_neg (by linarith),
      if_neg (by linarith), if_pos hKhi, if_neg hdisc]
  have hcl' : A < Real.sqrt (2150 ^ 2 - (K - 2150) ^ 2) := (Real.lt_sqrt hA).mpr hcl
  rw [hpw, excel_widening_zero, add_zero]
  rw [Real.le_sqrt (by norm_num) (by positivity)]
  set u : ℝ := 356000 / Real.sqrt 1148489 with hudef
  set v : ℝ := 3798520 / Real.sqrt 1148489 with hvdef
  set c : ℝ := Real.sqrt (2150 ^ 2 - (K - 2150) ^ 2) with hcdef
  have h1 : 1950 - u - c ≤ -mdx := by linarith [hu.1]
  have h2 := sq_ge_of_le_neg hmdx h1
  rcases hmdy2 with hK | h0
  · have h3 : v - K ≤ -mdy := by linarith [hv.2]
    have h4 := sq_ge_of_le_neg hmdy h3
    nlinarith [h2, h4]
  · rw [h0] at htot
    nlinarith [h2, sq_nonneg (v - K)]

/-- Distance lower bound for a sample far (vertically) from the fixture's
rail-center point: the vertical gap alone exceeds 14.01 mm. -/
theorem C9_far_case (K W mdy : ℝ) (hmdy : 0 ≤ mdy) (h14 : 196.2801 ≤ mdy ^ 2)
    (hside : 3544.468 + mdy ≤ K ∨ K + mdy ≤ 3544.467) :
    14.01 ≤ Real.sqrt ((1950 - 356000 / Real.sqrt 1148489 - W) ^ 2
      + (3798520 / Real.sqrt 1148489 - K) ^ 2) := by
  have hv := C9_v_bounds
  rw [Real.le_sqrt (by norm_num) (by positivity)]
  rcases hside with hK | hK
  · have h3 : 3798520 / Real.sqrt 1148489 - K ≤ -mdy := by linarith [hv.2]
    have h4 := sq_ge_of_le_neg hmdy h3
    nlinarith [h4, sq_nonneg (1950 - 356000 / Real.sqrt 1148489 - W)]
  · have h3 : mdy ≤ 3798520 / Real.sqrt 1148489 - K := by linarith [hv.1]
    have h4 := sq_ge_of_ge hmdy h3
    nlinarith [h4, sq_nonneg (1950 - 356000 / Real.sqrt 1148489 - W)]

/-- Every sampled clearance point is at distance more than 14.01 mm from the
fixture's rail-center point: samples more than nine steps away vertically are
handled by the vertical gap alone, and each of the nine nearby arc samples by
explicit rational bounds on its half-width. -/
theorem C9_dist_lower :
    ∀ q ∈ create_clearance_data_with_widening 0,
      14.01 ≤ Real.sqrt ((1950 - 356000 / Real.sqrt 1148489 - q.1) ^ 2
        + (3798520 / Real.sqrt 1148489 - q.2) ^ 2) := by
  intro q hq
  unfold create_clearance_data_with_widening at hq
  obtain ⟨h, hh, rfl⟩ := List.mem_map.mp hq
  obtain ⟨k, hk, rfl⟩ := npLinspace_mem hh
  dsimp only
  rcases Nat.lt_or_ge k 1099 with hklo | hk1
  · refine C9_far_case _ _ 16.5 (by norm_num) (by norm_num) (Or.inr ?_)
    have hk' : (k : ℝ) ≤ 1098 := by exact_mod_cast Nat.lt_succ_iff.mp hklo
    push_cast
    linarith
  rcases Nat.lt_or_ge k 1108 with hkmid | hkhi
  swap
  · refine C9_far_case _ _ 15.6 (by norm_num) (by norm_num) (Or.inl ?_)
    have hk' : (1108 : ℝ) ≤ (k : ℝ) := by exact_mod_cast hkhi
    push_cast
    linarith
  interval_cases k
  · exact C9_arc_case _ 1647.6829 29.87 0 (by norm_num) (by push_cast; norm_num)
      (by push_cast; norm_num) (by push_cast; norm_num) (by push_cast; norm_num)
      (by norm_num) (by norm_num) (by norm_num) (Or.inr rfl) (by norm_num)
  · exact C9_arc_case _ 1644.9842 27.17 0 (by norm_num) (by push_cast; norm_num)
      (by push_cast; norm_num) (by push_cast; norm_num) (by push_cast; norm_num)
      (by norm_num) (by norm_num) (by norm_num) (Or.inr rfl) (by norm_num)
  · exact C9_arc_case _ 1642.2748 24.46 0 (by norm_num) (by push_cast; norm_num)
      (by push_cast; norm_num) (by push_cast; norm_num) (by push_cast; norm_num)
      (by norm_num) (by norm_num) (by norm_num) (Or.inr rfl) (by norm_num)
  · exact C9_arc_case _ 1639.5546 21.74 0 (by norm_num) (by push_cast; norm_num)
      (by push_cast; norm_num) (by push_cast; norm_num) (by push_cast; norm_num)
      (by norm_num) (by norm_num) (by norm_num) (Or.inr rfl) (by norm_num)
  · exact C9_arc_case _ 1636.8236 19.01 0 (by norm_num) (by push_cast; norm_num)
      (by push_cast; norm_num) (by push_cast; norm_num) (by push_cast; norm_num)
      (by norm_num) (by norm_num) (by norm_num) (Or.inr rfl) (by norm_num)
  · exact C9_arc_case _ 1634.0817 16.27 0 (by norm_num) (by push_cast; norm_num)
      (by push_cast; norm_num) (by push_cast; norm_num) (by push_cast; norm_num)
      (by norm_num) (by norm_num) (by norm_num) (Or.inr rfl) (by norm_num)
  · exact C9_arc_case _ 1631.3288 13.51 5.98 (by norm_num) (by push_cast; norm_num)
      (by push_cast; norm_num) (by push_cast; norm_num) (by push_cast; norm_num)
      (by norm_num) (by norm_num) (by norm_num) (Or.inl (by push_cast; norm_num))
      (by norm_num)
  · exact C9_arc_case _ 1628.5650 10.75 9.196 (by norm_num) (by push_cast; norm_num)
      (by push_cast; norm_num) (by push_cast; norm_num) (by push_cast; norm_num)
      (by norm_num) (by norm_num) (by norm_num) (Or.inl (by push_cast; norm_num))
      (by norm_num)
  · exact C9_arc_case _ 1625.7901 7.98 12.4 (by norm_num) (by push_cast; norm_num)
      (by push_cast; norm_num) (by push_cast; norm_num) (by push_cast; norm_num)
      (by norm_num) (by norm_num) (by norm_num) (Or.inl (by push_cast; norm_num))
      (by norm_num)

/-- Bounds on the raw nearest distance of the regression fixture: the minimum
over the 1775 sampled distances lies in `[14.01, 14.5]` (the sample at index
1106 realizes a distance below 14.5, and no sample comes closer than 14.01). -/
theorem C9_ag2_bounds :
    14.01 ≤ calculate_ag2_excel_method 1950 3560 100 0
    ∧ calculate_ag2_excel_method 1950 3560 100 0 ≤ 14.5 := by
  have hu := C9_u_bounds
  have hv := C9_v_bounds
  have hmem : ((base_clearance_piecewise (5700 * 1106 / 1774 : ℝ) + excel_widening 0),
      (5700 * 1106 / 1774 : ℝ)) ∈ create_clearance_data_with_widening 0 := by
    unfold create_clearance_data_with_widening
    refine List.mem_map.mpr ⟨(5700 * 1106 / 1774 : ℝ), ?_, rfl⟩
    unfold npLinspace
    refine List.mem_map.mpr ⟨1106, List.mem_range.mpr (by norm_num), ?_⟩
    push_cast
    norm_num
  have hpw : base_clearance_piecewise (5700 * 1106 / 1774 : ℝ)
      = Real.sqrt (2150 ^ 2 - ((5700 * 1106 / 1774 : ℝ) - 2150) ^ 2) := by
    unfold base_clearance_piecewise
    rw [if_neg (by norm_num), if_neg (by norm_num), if_neg (by norm_num), if_neg (by norm_num),
      if_pos (by norm_num), if_neg (by norm_num)]
  have hcl : (1628.5650 : ℝ) < Real.sqrt (2150 ^ 2 - ((5700 * 1106 / 1774 : ℝ) - 2150) ^ 2) :=
    (Real.lt_sqrt (by norm_num)).mpr (by norm_num)
  have hcu : Real.sqrt (2150 ^ 2 - ((5700 * 1106 / 1774 : ℝ) - 2150) ^ 2) < 1628.5670 :=
    (Real.sqrt_lt' (by norm_num)).mpr (by norm_num)
  have hd1106 : Real.sqrt ((1950 - 356000 / Real.sqrt 1148489
        - (base_clearance_piecewise (5700 * 1106 / 1774 : ℝ) + excel_widening 0)) ^ 2
      + (3798520 / Real.sqrt 1148489 - (5700 * 1106 / 1774 : ℝ)) ^ 2) ≤ 14.5 := by
    rw [hpw, excel_widening_zero, add_zero]
    rw [Real.sqrt_le_left (by norm_num)]
    set u : ℝ := 356000 / Real.sqrt 1148489 with hudef
    set v : ℝ := 3798520 / Real.sqrt 1148489 with hvdef
    set c : ℝ := Real.sqrt (2150 ^ 2 - ((5700 * 1106 / 1774 : ℝ) - 2150) ^ 2) with hcdef
    have hdx1 : -(10.758 : ℝ) ≤ 1950 - u - c := by linarith [hu.2]
    have hdx2 : 1950 - u - c ≤ 0 := by linarith [hu.1]
    have hdy1 : -(9.198 : ℝ) ≤ v - 5700 * 1106 / 1774 := by linarith [hv.1]
    have hdy2 : v - 5700 * 1106 / 1774 ≤ 0 := by linarith [hv.2]
    nlinarith [hdx1, hdx2, hdy1, hdy2]
  unfold calculate_ag2_excel_method
  rw [C9_transform]
  dsimp only
  set L := (create_clearance_data_with_widening 0).map
    (fun q => Real.sqrt ((1950 - 356000 / Real.sqrt 1148489 - q.1) ^ 2
      + (3798520 / Real.sqrt 1148489 - q.2) ^ 2)) with hL
  have hdmem : Real.sqrt ((1950 - 356000 / Real.sqrt 1148489
        - (base_clearance_piecewise (5700 * 1106 / 1774 : ℝ) + excel_widening 0)) ^ 2
      + (3798520 / Real.sqrt 1148489 - (5700 * 1106 / 1774 : ℝ)) ^ 2) ∈ L := by
    rw [hL]
    exact List.mem_map.mpr ⟨_, hmem, rfl⟩
  have hminle := List.minimum_le_of_mem' hdmem
  have hgele : ((14.01 : ℝ) : WithTop ℝ) ≤ L.minimum := by
    refine List.le_minimum_of_forall_le fun a ha => ?_
    rw [hL] at ha
    obtain ⟨q, hq, rfl⟩ := List.mem_map.mp ha
    exact_mod_cast C9_dist_lower q hq
  have hnetop : L.minimum ≠ ⊤ := by
    refine List.minimum_ne_top_of_ne_nil ?_
    rw [hL]
    simp [create_clearance_data_with_widening, npLinspace]
  obtain ⟨m, hm⟩ := WithTop.ne_top_iff_exists.mp hnetop
  rw [← hm] at hminle hgele ⊢
  rw [WithTop.untop'_coe]
  constructor
  · exact_mod_cast hgele
  · have hmle : m ≤ Real.sqrt ((1950 - 356000 / Real.sqrt 1148489
        - (base_clearance_piecewise (5700 * 1106 / 1774 : ℝ) + excel_widening 0)) ^ 2
      + (3798520 / Real.sqrt 1148489 - (5700 * 1106 / 1774 : ℝ)) ^ 2) := by
      exact_mod_cast hminle
    linarith

/-- C9: the regression fixture offset 1950 mm, height 3560 mm, cant 100 mm,
radius 0 m is classified as an interference and reported with a 15 mm
infringement (the raw nearest distance of about 14.15 mm is kept by the
`ag2 >= 13` tier and rounded up). -/
theorem C9_regression_fixture :
    (calculate_all_excel_method 1950 3560 100 0).is_interference
    ∧ (calculate_all_excel_method 1950 3560 100 0).clearance_margin = 15 := by
  have hag := C9_ag2_bounds
  have hcorr : corrected_margin_spec (calculate_ag2_excel_method 1950 3560 100 0)
      = calculate_ag2_excel_method 1950 3560 100 0 := by
    unfold corrected_margin_spec
    rw [if_neg (by linarith [hag.1]), if_neg (by linarith [hag.1])]
  have hins : is_point_inside_building_clearance
      (coordinate_transform_to_rail_center 1950 3560 100).1
      (coordinate_transform_to_rail_center 1950 3560 100).2 0 := by
    rw [C9_transform]
    exact C9_inside
  constructor
  · show (calculate_clearance_margin_excel_method 1950 3560 100 0).is_interference
    rw [calculate_clearance_margin_excel_method_eq]
    exact Or.inl hins
  · show (calculate_clearance_margin_excel_method 1950 3560 100 0).final_margin = 15
    rw [calculate_clearance_margin_excel_method_eq]
    dsimp only
    rw [if_pos (Or.inl hins), hcorr, Int.ceil_eq_iff]
    constructor
    · push_cast
      linarith [hag.1]
    · push_cast
      linarith [hag.2]
